import Mathlib

/-!
Shallow embedding of the protocol layer of `ps2000.py`, a driver for the
EA-PS2000 bench power supply. Bytes are modelled as natural numbers; the
Python functions that may terminate the process via `sys.exit` are modelled
with explicit outcome types. All definitions are translated directly from
the source file `src/ps2000.py`.
-/

/-- Request kind constant `PS_QUERY = 0x40` from the source. -/
def PS_QUERY : Nat := 0x40

/-- Request kind constant `PS_SEND = 0xc0` from the source. -/
def PS_SEND : Nat := 0xc0

/-- Outcome of a Python function that either returns a value or terminates
the whole process through `sys.exit(code)`. -/
inductive PyRes (α : Type) where
  | ret (a : α)
  | exit (code : Nat)
deriving DecidableEq, Repr

/-- Embeds `_construct(type, node, obj, data)`: start delimiter `0x30 + type`,
then node, object end data bytes; when data is non-empty the start byte is
incremented by `len(data) - 1`; finally the two checksum bytes `cs >> 8` and
`cs & 0xff` are appended, where `cs` is the sum of all preceding bytes. -/
def construct (ty node obj : Nat) (data : List Nat) : List Nat :=
  let start := if data.length > 0 then 0x30 + ty + (data.length - 1) else 0x30 + ty
  let body := start :: node :: obj :: data
  let cs := body.foldl (fun a b => a + b) 0
  body ++ [cs >>> 8, cs &&& 0xff]

/-- Embeds `_check_checksum(ans)`: recomputes the byte sum of `ans[0:-2]` and
compares it with the trailing two bytes; on mismatch the source prints an
error and calls `sys.exit(1)` (the `return False` after it is unreachable),
otherwise it returns `True`. -/
def check_checksum (ans : List Nat) : PyRes Bool :=
  let cs := (ans.take (ans.length - 2)).foldl (fun a b => a + b) 0
  if ans.getD (ans.length - 2) 0 ≠ cs >>> 8 ∨ ans.getD (ans.length - 1) 0 ≠ cs &&& 0xff then
    PyRes.exit 1
  else
    PyRes.ret true

lemma getD_append_pair_fst (l : List Nat) (a b : Nat) :
    (l ++ [a, b]).getD l.length 0 = a := by
  induction l with
  | nil => rfl
  | cons x xs ih => simpa [List.getD] using ih

lemma getD_append_pair_snd (l : List Nat) (a b : Nat) :
    (l ++ [a, b]).getD (l.length + 1) 0 = b := by
  induction l with
  | nil => rfl
  | cons x xs ih => simpa [List.getD] using ih

lemma take_append_pair (l : List Nat) (a b : Nat) :
    (l ++ [a, b]).take l.length = l := by
  exact List.take_left l [a, b]

/-- C1: for every valid input (type among QUERY and SEND, node and object in
[0, 255], data a byte sequence), the telegram produced by `_construct` passes
`_check_checksum`: the validator recomputes the byte sum of everything before
the trailing two bytes and finds exactly the bytes the encoder appended. -/
theorem construct_passes_check_checksum (ty node obj : Nat) (data : List Nat)
    (hty : ty = PS_QUERY ∨ ty = PS_SEND) (hnode : node ≤ 0xff) (hobj : obj ≤ 0xff)
    (hdata : ∀ b ∈ data, b ≤ 0xff) :
    check_checksum (construct ty node obj data) = PyRes.ret true := by
  unfold construct check_checksum
  set start := if data.length > 0 then 0x30 + ty + (data.length - 1) else 0x30 + ty with hstart
  set body := start :: node :: obj :: data with hbody
  set cs := body.foldl (fun a b => a + b) 0 with hcs
  have hlen : (body ++ [cs >>> 8, cs &&& 0xff]).length - 2 = body.length := by
    simp
  rw [hlen, take_append_pair, getD_append_pair_fst]
  have h2 : body.length + 1 = (body ++ [cs >>> 8, cs &&& 0xff]).length - 1 := by
    simp
  rw [← h2, getD_append_pair_snd]
  simp [hbody]

/-- Witness for C1 at the concrete query telegram for object 2. -/
theorem construct_passes_check_checksum_witness :
    check_checksum (construct 0x40 0 2 []) = PyRes.ret true :=
  construct_passes_check_checksum 0x40 0 2 [] (Or.inl rfl) (by decide) (by decide)
    (by intro b hb; cases hb)

/-- Device error kinds distinguished by the `elif` chain of `_check_error`;
`other` covers codes with no dedicated message. -/
inductive ErrKind where
  | checksumIncorrect
  | startDelimiter
  | wrongAddress
  | objectUndefined
  | objectLength
  | accessDenied
  | deviceLocked
  | upperLimit
  | lowerLimit
  | other
deriving DecidableEq, Repr

/-- Maps the error code byte `ans[3]` to the kind whose message the `elif`
chain of `_check_error` prints. -/
def classify_code (c : Nat) : ErrKind :=
  if c = 0x03 then ErrKind.checksumIncorrect
  else if c = 0x04 then ErrKind.startDelimiter
  else if c = 0x05 then ErrKind.wrongAddress
  else if c = 0x07 then ErrKind.objectUndefined
  else if c = 0x08 then ErrKind.objectLength
  else if c = 0x09 then ErrKind.accessDenied
  else if c = 0x0f then ErrKind.deviceLocked
  else if c = 0x30 then ErrKind.upperLimit
  else if c = 0x31 then ErrKind.lowerLimit
  else ErrKind.other

/-- Outcome of `_check_error(ans)`. The source returns `False` both when
`ans[2] != 0xff` (normal data payload, `data` here) and when `ans[3] == 0x00`
(acknowledge, `ack` here); for every other code it prints the matching error
message and the raw answer and terminates through `sys.exit(1)` (`fatal`). -/
inductive CheckErrorRes where
  | data
  | ack
  | fatal (k : ErrKind)
deriving DecidableEq, Repr

/-- Embeds `_check_error(ans)`. -/
def check_error (ans : List Nat) : CheckErrorRes :=
  if ans.getD 2 0 ≠ 0xff then CheckErrorRes.data
  else if ans.getD 3 0 = 0x00 then CheckErrorRes.ack
  else CheckErrorRes.fatal (classify_code (ans.getD 3 0))

/-- Outcome of the receive half of `_transfer`: a read of fewer than 5 bytes
prints a short-answer error and exits, a checksum mismatch exits inside
`_check_checksum`, a device error code exits inside `_check_error`, and
otherwise the full answer is returned. -/
inductive TransferRes where
  | shortAnswer
  | checksumExit
  | errorExit (k : ErrKind)
  | ok (ans : List Nat)
deriving DecidableEq, Repr

/-- Embeds the response handling of `_transfer`: length check, then
`_check_checksum`, then `_check_error`, then `return ans`. -/
def transfer_receive (ans : List Nat) : TransferRes :=
  if ans.length < 5 then TransferRes.shortAnswer
  else
    match check_checksum ans with
    | PyRes.exit _ => TransferRes.checksumExit
    | PyRes.ret _ =>
      match check_error ans with
      | CheckErrorRes.fatal k => TransferRes.errorExit k
      | _ => TransferRes.ok ans

/-- Embeds the send half of `_transfer`: the telegram is built by
`self._construct(type, 0, obj, data)`, with the node argument of `_transfer`
ignored and the literal 0 passed instead. -/
def transfer_telegram (ty node obj : Nat) (data : List Nat) : List Nat :=
  construct ty 0 obj data

/-- C4 counterexample: on the mismatching frame [1, 2, 3, 0, 0] (byte sum 6,
trailing bytes 0, 0), `_check_checksum` does not return `False` as the claim
states: it terminates the process through `sys.exit(1)`. -/
theorem check_checksum_exits_counterexample :
    check_checksum [1, 2, 3, 0, 0] = PyRes.exit 1 ∧
      check_checksum [1, 2, 3, 0, 0] ≠ PyRes.ret false := by
  decide

/-- C4 amended: for every frame of at least 5 bytes whose trailing two bytes,
read big-endian, differ from the 16-bit sum of all preceding bytes, the
embedded `_check_checksum` takes the mismatch branch and terminates the
process with exit code 1; the failure is never surfaced to the caller as a
returned value. -/
theorem check_checksum_mismatch_exits (ans : List Nat) (hlen : 5 ≤ ans.length)
    (hsum : (ans.take (ans.length - 2)).foldl (fun a b => a + b) 0 < 0x10000)
    (hmismatch : ans.getD (ans.length - 2) 0 * 0x100 + ans.getD (ans.length - 1) 0 ≠
      (ans.take (ans.length - 2)).foldl (fun a b => a + b) 0) :
    check_checksum ans = PyRes.exit 1 := by
  unfold check_checksum
  set cs := (ans.take (ans.length - 2)).foldl (fun a b => a + b) 0 with hcs
  have hc : ans.getD (ans.length - 2) 0 ≠ cs >>> 8 ∨ ans.getD (ans.length - 1) 0 ≠ cs &&& 0xff := by
    by_contra hcon
    push_neg at hcon
    apply hmismatch
    rw [hcon.1, hcon.2]
    have hs : cs >>> 8 = cs / 0x100 := Nat.shiftRight_eq_div_pow cs 8
    have ha : cs &&& 0xff = cs % 0x100 := Nat.and_pow_two_sub_one_eq_mod cs 8
    rw [hs, ha]
    omega
  rw [if_pos hc]

/-- Witness for C4 amended at the frame [1, 2, 3, 0, 0]. -/
theorem check_checksum_mismatch_exits_witness :
    check_checksum [1, 2, 3, 0, 0] = PyRes.exit 1 :=
  check_checksum_mismatch_exits [1, 2, 3, 0, 0] (by decide) (by decide) (by decide)

/-- C5: whenever the transport read yields 4 or fewer bytes, the response
handling of `_transfer` reports the short answer and exits before either
`_check_checksum` or `_check_error` runs, regardless of the bytes read. -/
theorem short_answer_exits (ans : List Nat) (h : ans.length ≤ 4) :
    transfer_receive ans = TransferRes.shortAnswer := by
  unfold transfer_receive
  have hlt : ans.length < 5 := by omega
  simp [hlt]

/-- Witness for C5 at the 4-byte read [0xaa, 0xbb, 0xcc, 0xdd]. -/
theorem short_answer_exits_witness :
    transfer_receive [0xaa, 0xbb, 0xcc, 0xdd] = TransferRes.shortAnswer :=
  short_answer_exits [0xaa, 0xbb, 0xcc, 0xdd] (by decide)

/-- C6: `_check_error` classifies a frame with byte 2 equal to 0xff and byte 3
equal to 0x30 as the fatal upper-limit-exceeded device error, a frame with
byte 2 equal to 0xff and byte 3 equal to 0x00 as the acknowledge of a
successful write, and every frame with byte 2 different from 0xff as normal
data. -/
theorem check_error_classification (ans : List Nat) :
    (ans.getD 2 0 = 0xff ∧ ans.getD 3 0 = 0x30 →
      check_error ans = CheckErrorRes.fatal ErrKind.upperLimit) ∧
    (ans.getD 2 0 = 0xff ∧ ans.getD 3 0 = 0x00 →
      check_error ans = CheckErrorRes.ack) ∧
    (ans.getD 2 0 ≠ 0xff → check_error ans = CheckErrorRes.data) := by
  refine ⟨fun h => ?_, fun h => ?_, fun h => ?_⟩
  · unfold check_error classify_code
    rw [h.1, h.2]
    decide
  · unfold check_error
    rw [h.1, h.2]
    decide
  · unfold check_error
    rw [if_pos h]

/-- Witness for C6 at three concrete frames: an upper-limit error frame, an
acknowledge frame, and a data frame. -/
theorem check_error_classification_witness :
    check_error [0, 0, 0xff, 0x30, 0] = CheckErrorRes.fatal ErrKind.upperLimit ∧
      check_error [0, 0, 0xff, 0x00, 0] = CheckErrorRes.ack ∧
      check_error [0, 0, 0x12, 0x30, 0] = CheckErrorRes.data :=
  ⟨(check_error_classification [0, 0, 0xff, 0x30, 0]).1 (by decide),
   (check_error_classification [0, 0, 0xff, 0x00, 0]).2.1 (by decide),
   (check_error_classification [0, 0, 0x12, 0x30, 0]).2.2 (by decide)⟩

/-- C10: the telegram `_transfer` writes to the transport does not depend on
its node argument: `_construct` is always called with the literal node 0, so
two calls agreeing on type, object, and data produce byte-identical
telegrams. -/
theorem telegram_ignores_node (ty n1 n2 obj : Nat) (data : List Nat) :
    transfer_telegram ty n1 obj data = transfer_telegram ty n2 obj data := rfl

/-- Embeds the payload built by `_set_integer(obj, data)`: the two-byte
big-endian list `[data >> 8, data & 0xff]` passed to `_transfer`. -/
def set_integer_data (data : Nat) : List Nat :=
  [data >>> 8, data &&& 0xff]

/-- Embeds the decode performed by `_get_integer` (and `_set_integer`) on the
answer frame: `(ans[3] << 8) + ans[4]`. -/
def get_integer_decode (ans : List Nat) : Nat :=
  (ans.getD 3 0 <<< 8) + ans.getD 4 0

/-- C7: for every v in [0, 65535], placing the two-byte big-endian encoding
produced by `_set_integer` at the payload position of a frame (bytes 3 and 4)
and decoding with the rule of `_get_integer` yields v back. -/
theorem integer_round_trip (v h0 h1 h2 : Nat) (hv : v < 0x10000) :
    get_integer_decode (h0 :: h1 :: h2 :: set_integer_data v) = v := by
  unfold get_integer_decode set_integer_data
  simp [List.getD]
  have hs : v >>> 8 = v / 0x100 := Nat.shiftRight_eq_div_pow v 8
  have ha : v &&& 0xff = v % 0x100 := Nat.and_pow_two_sub_one_eq_mod v 8
  rw [hs, ha, Nat.shiftLeft_eq]
  omega

/-- Witness for C7 at v = 0xabcd. -/
theorem integer_round_trip_witness :
    get_integer_decode (0x30 :: 0 :: 50 :: set_integer_data 0xabcd) = 0xabcd :=
  integer_round_trip 0xabcd 0x30 0 50 (by decide)

/-- Embeds the slice `ans[3:-2]` that `_set_binary` (and `_get_binary`)
returns from the full answer frame. -/
def binary_slice (ans : List Nat) : List Nat :=
  (ans.drop 3).take (ans.length - 5)

/-- Embeds the acknowledge test of `_set_control` on the slice returned by
`_set_binary`: `ans[0] == 0xff and ans[1] == 0x00`, with the second index
reached only when the first test succeeds (Python short-circuit). -/
def set_control_ack (s : List Nat) : Bool :=
  decide (s.getD 0 0 = 0xff) && decide (s.getD 1 0 = 0x00)

/-- C3: on the acknowledge frame [0x80, 0x00, 0xff, 0x00, 0x01, 0x7f] — valid
checksum, error/ack marker 0xff at byte 2 and code 0x00 at byte 3, so
`_check_error` treats it as a successful write — `_set_control` nevertheless
returns False: it tests indices 0 and 1 of the slice `ans[3:-2]`, which are
frame bytes 3 and 4, not the marker bytes 2 and 3 that its own comment about
the acknowledge refers to. -/
theorem set_control_rejects_acknowledge :
    transfer_receive [0x80, 0x00, 0xff, 0x00, 0x01, 0x7f] =
        TransferRes.ok [0x80, 0x00, 0xff, 0x00, 0x01, 0x7f] ∧
      check_error [0x80, 0x00, 0xff, 0x00, 0x01, 0x7f] = CheckErrorRes.ack ∧
      set_control_ack (binary_slice [0x80, 0x00, 0xff, 0x00, 0x01, 0x7f]) = false := by
  decide

/-- Models the Python 3 built-in round applied to an exact value: round half
to even. -/
def py_round (x : ℚ) : ℤ :=
  if x - ⌊x⌋ < 1 / 2 then ⌊x⌋
  else if 1 / 2 < x - ⌊x⌋ then ⌊x⌋ + 1
  else if ⌊x⌋ % 2 = 0 then ⌊x⌋ else ⌊x⌋ + 1

/-- Embeds the payload of `set_OVP_threshold(u)` for object 38: the value is
passed to `_set_integer` unchanged. -/
def set_OVP_threshold_data (u : Nat) : List Nat :=
  set_integer_data u

/-- Embeds the payload of `set_OCP_threshold(i)` for object 39: the value is
passed to `_set_integer` unchanged. -/
def set_OCP_threshold_data (i : Nat) : List Nat :=
  set_integer_data i

/-- Embeds the payload of `set_voltage(u)` for object 50: the raw integer
`int(round((u * 25600.0) / self.u_nom))` is passed to `_set_integer`. The
exact rational computation models the floating-point expression of the
source, and the nonnegative regime of the claim is modelled with toNat. -/
def set_voltage_data (u uNom : ℚ) : List Nat :=
  set_integer_data (py_round (u * 25600 / uNom)).toNat

/-- Embeds the payload of `set_current(i)` for object 51: the raw integer
`int(round((i * 25600.0) / self.i_nom))` is passed to `_set_integer`. -/
def set_current_data (i iNom : ℚ) : List Nat :=
  set_integer_data (py_round (i * 25600 / iNom)).toNat

/-- C2 counterexample: with nominal voltage 20 and value 10, the claim says
the write path of object 38 sends round(10 * 25600 / 20) = 12800, but
`set_OVP_threshold` sends the value 10 unscaled, so the payloads differ. -/
theorem ovp_write_unscaled_counterexample :
    set_OVP_threshold_data 10 ≠
      set_integer_data (py_round ((10 : ℚ) * 25600 / 20)).toNat := by
  have h1 : ((10 : ℚ) * 25600 / 20) = 12800 := by norm_num
  have h2 : py_round 12800 = 12800 := by
    unfold py_round
    norm_num
  rw [h1, h2]
  decide

/-- C2 amended: among the scaled read/write objects only the setpoint writers
scale: `set_voltage` (object 50) and `set_current` (object 51) encode the raw
integer round(v * 25600 / nominal) before sending it through `_set_integer`,
while `set_OVP_threshold` (object 38) and `set_OCP_threshold` (object 39)
pass the caller's value to `_set_integer` unscaled. -/
theorem write_path_scaling (u uNom i iNom : ℚ) (v w : Nat) :
    set_voltage_data u uNom = set_integer_data (py_round (u * 25600 / uNom)).toNat ∧
      set_current_data i iNom = set_integer_data (py_round (i * 25600 / iNom)).toNat ∧
      set_OVP_threshold_data v = set_integer_data v ∧
      set_OCP_threshold_data w = set_integer_data w :=
  ⟨rfl, rfl, rfl, rfl⟩

/-- Fields of the dictionary built by `get_actual` from the payload slice of
object 71 (the Lean field localFlag embeds the dictionary key for local, and
isOn the key for on, renamed because both words are reserved). -/
structure ActualValues where
  remote : Bool
  localFlag : Bool
  isOn : Bool
  CC : Bool
  CV : Bool
  OVP : Bool
  OCP : Bool
  OPP : Bool
  OTP : Bool
  v : ℚ
  i : ℚ
deriving DecidableEq, Repr

/-- Fields of the dictionary built by `get_setpoints` from the payload slice
of object 72; the source builds no local and no CV entry here. -/
structure SetpointValues where
  remote : Bool
  isOn : Bool
  CC : Bool
  OVP : Bool
  OCP : Bool
  OPP : Bool
  OTP : Bool
  v : ℚ
  i : ℚ
deriving DecidableEq, Repr

/-- Embeds the decode of `get_actual`: flags from the bit tests on bytes 0
and 1 of the payload slice, and the scaled values
`u_nom * ((ans[2] << 8) + ans[3]) / 25600` and
`i_nom * ((ans[4] << 8) + ans[5]) / 25600` over exact rationals. -/
def get_actual_decode (uNom iNom : ℚ) (ans : List Nat) : ActualValues :=
  let remote := decide (ans.getD 0 0 &&& 0x03 ≠ 0)
  let cc := decide (ans.getD 1 0 &&& 0x06 ≠ 0)
  { remote := remote
    localFlag := !remote
    isOn := decide (ans.getD 1 0 &&& 0x01 ≠ 0)
    CC := cc
    CV := !cc
    OVP := decide (ans.getD 1 0 &&& 0x10 ≠ 0)
    OCP := decide (ans.getD 1 0 &&& 0x20 ≠ 0)
    OPP := decide (ans.getD 1 0 &&& 0x40 ≠ 0)
    OTP := decide (ans.getD 1 0 &&& 0x80 ≠ 0)
    v := uNom * (((ans.getD 2 0 <<< 8) + ans.getD 3 0 : Nat) : ℚ) / 25600
    i := iNom * (((ans.getD 4 0 <<< 8) + ans.getD 5 0 : Nat) : ℚ) / 25600 }

/-- Embeds the decode of `get_setpoints`: the same bit tests and the same
scaling expressions as `get_actual`, applied to the payload slice of object
72, without the derived local and CV entries. -/
def get_setpoints_decode (uNom iNom : ℚ) (ans : List Nat) : SetpointValues :=
  { remote := decide (ans.getD 0 0 &&& 0x03 ≠ 0)
    isOn := decide (ans.getD 1 0 &&& 0x01 ≠ 0)
    CC := decide (ans.getD 1 0 &&& 0x06 ≠ 0)
    OVP := decide (ans.getD 1 0 &&& 0x10 ≠ 0)
    OCP := decide (ans.getD 1 0 &&& 0x20 ≠ 0)
    OPP := decide (ans.getD 1 0 &&& 0x40 ≠ 0)
    OTP := decide (ans.getD 1 0 &&& 0x80 ≠ 0)
    v := uNom * (((ans.getD 2 0 <<< 8) + ans.getD 3 0 : Nat) : ℚ) / 25600
    i := iNom * (((ans.getD 4 0 <<< 8) + ans.getD 5 0 : Nat) : ℚ) / 25600 }

/-- C8: on every payload and nominal pair, the object 72 decoder of
`get_setpoints` produces exactly the flags and scaled values of the object 71
decoder of `get_actual`, bit for bit and byte for byte, and the two extra
entries of `get_actual` are the negations of remote and CC, so the two
decoders agree on the whole decoded field set. -/
theorem setpoints_mirror_actual (uNom iNom : ℚ) (ans : List Nat) :
    (get_setpoints_decode uNom iNom ans).remote = (get_actual_decode uNom iNom ans).remote ∧
    (get_setpoints_decode uNom iNom ans).isOn = (get_actual_decode uNom iNom ans).isOn ∧
    (get_setpoints_decode uNom iNom ans).CC = (get_actual_decode uNom iNom ans).CC ∧
    (get_setpoints_decode uNom iNom ans).OVP = (get_actual_decode uNom iNom ans).OVP ∧
    (get_setpoints_decode uNom iNom ans).OCP = (get_actual_decode uNom iNom ans).OCP ∧
    (get_setpoints_decode uNom iNom ans).OPP = (get_actual_decode uNom iNom ans).OPP ∧
    (get_setpoints_decode uNom iNom ans).OTP = (get_actual_decode uNom iNom ans).OTP ∧
    (get_setpoints_decode uNom iNom ans).v = (get_actual_decode uNom iNom ans).v ∧
    (get_setpoints_decode uNom iNom ans).i = (get_actual_decode uNom iNom ans).i ∧
    (get_actual_decode uNom iNom ans).localFlag = !(get_actual_decode uNom iNom ans).remote ∧
    (get_actual_decode uNom iNom ans).CV = !(get_actual_decode uNom iNom ans).CC :=
  ⟨rfl, rfl, rfl, rfl, rfl, rfl, rfl, rfl, rfl, rfl, rfl⟩

/-- Embeds the decode performed on 4 payload bytes by the format of
`struct.unpack` in `_get_float`: the big-endian IEEE-754 binary32 value, as
an exact rational for the finite cases and none for infinities and NaNs
(exponent field 0xff). -/
def unpack_be_float (b0 b1 b2 b3 : Nat) : Option ℚ :=
  let bits := (b0 <<< 24) ||| (b1 <<< 16) ||| (b2 <<< 8) ||| b3
  let sign : ℚ := if bits >>> 31 = 0 then 1 else -1
  let e := (bits >>> 23) &&& 0xff
  let m := bits &&& 0x7fffff
  if e = 0xff then none
  else if e = 0 then some (sign * (m : ℚ) * 2 / 2 ^ 150)
  else some (sign * ((2 ^ 23 + m : Nat) : ℚ) * 2 ^ e / 2 ^ 150)

/-- Embeds `_get_float`: the payload of the answer frame is the slice
`ans[3:-2]`, whose four bytes are decoded big-endian. -/
def get_float_decode (ans : List Nat) : Option ℚ :=
  unpack_be_float (ans.getD 3 0) (ans.getD 4 0) (ans.getD 5 0) (ans.getD 6 0)

/-- C9 counterexample: the payload slice [0x41, 0x2a, 0x00, 0x00] does not
decode to 10.6640625 under the big-endian binary32 rule of `_get_float`. -/
theorem float_decode_counterexample :
    unpack_be_float 0x41 0x2a 0x00 0x00 ≠ some ((106640625 : ℚ) / 10000000) := by
  have h1 : ((0x41 : Nat) <<< 24 ||| 0x2a <<< 16 ||| 0 <<< 8 ||| 0) = 0x412a0000 := by decide
  have h2 : ((0x412a0000 : Nat)) >>> 31 = 0 := by decide
  have h3 : ((0x412a0000 : Nat)) >>> 23 &&& 0xff = 130 := by decide
  have h4 : ((0x412a0000 : Nat)) &&& 0x7fffff = 2752512 := by decide
  unfold unpack_be_float
  simp only [h1, h2, h3, h4]
  norm_num

/-- C9 amended: the payload slice [0x41, 0x2a, 0x00, 0x00], interpreted as a
big-endian IEEE-754 single-precision float by the decode rule of
`_get_float`, yields exactly 10.625 (sign 0, exponent field 130, mantissa
field 0x2a0000). -/
theorem float_decode_value :
    unpack_be_float 0x41 0x2a 0x00 0x00 = some ((85 : ℚ) / 8) := by
  have h1 : ((0x41 : Nat) <<< 24 ||| 0x2a <<< 16 ||| 0 <<< 8 ||| 0) = 0x412a0000 := by decide
  have h2 : ((0x412a0000 : Nat)) >>> 31 = 0 := by decide
  have h3 : ((0x412a0000 : Nat)) >>> 23 &&& 0xff = 130 := by decide
  have h4 : ((0x412a0000 : Nat)) &&& 0x7fffff = 2752512 := by decide
  unfold unpack_be_float
  simp only [h1, h2, h3, h4]
  norm_num
